import Mathlib

/-!
# Verification of rimless (postMessage RPC library)

Shallow embedding of the rimless source: the RPC call/response layer
(`rpc.ts`: `registerLocalMethods` / `handleCall`, `createRPC` /
`handleResponse`, `registerRemoteMethods`), the host multiplexer
(`host.ts`: `isValidTarget`, `makeConnectionNegotiator`, `mainListener`,
`host.connect`, the public `connect`), and the guest connector
(`guest.ts`: `connect`, `handleHandshakeResponse`, retry interval and
timeout).  Values carried over the wire are modelled by a JSON value
type; `JSON.parse(JSON.stringify(x))` on a JSON-serializable value is
modelled by the structural deep copy `jsonClone`.
-/

namespace Rimless

/-- JSON-serializable values: the data that survives
`JSON.parse(JSON.stringify(-))` unchanged.  Arguments, results and
schema payloads on the wire are values of this type. -/
inductive JValue where
  | null : JValue
  | bool (b : Bool) : JValue
  | num (n : Int) : JValue
  | str (s : String) : JValue
  | arr (elems : List JValue) : JValue
  | obj (fields : List (String × JValue)) : JValue
deriving Repr

mutual

/-- Model of the JSON round trip `JSON.parse(JSON.stringify(v))` applied
to a JSON-serializable value: a structural deep copy. -/
def jsonClone : JValue → JValue
  | .null => .null
  | .bool b => .bool b
  | .num n => .num n
  | .str s => .str s
  | .arr xs => .arr (jsonCloneList xs)
  | .obj fs => .obj (jsonCloneFields fs)

/-- Deep copy of a JSON array's elements. -/
def jsonCloneList : List JValue → List JValue
  | [] => []
  | v :: vs => jsonClone v :: jsonCloneList vs

/-- Deep copy of a JSON object's fields. -/
def jsonCloneFields : List (String × JValue) → List (String × JValue)
  | [] => []
  | (k, v) :: fs => (k, jsonClone v) :: jsonCloneFields fs

end

namespace actions

/-- `actions.HANDSHAKE_REQUEST` from types.ts. -/
def HANDSHAKE_REQUEST : String := "ANCHOR/HANDSHAKE_REQUEST"

/-- `actions.HANDSHAKE_REPLY` from types.ts. -/
def HANDSHAKE_REPLY : String := "ANCHOR/HANDSHAKE_REPLY"

/-- `actions.RPC_REQUEST` from types.ts. -/
def RPC_REQUEST : String := "ANCHOR/RPC_REQUEST"

/-- `actions.RPC_RESOLVE` from types.ts. -/
def RPC_RESOLVE : String := "ANCHOR/RPC_RESOLVE"

/-- `actions.RPC_REJECT` from types.ts. -/
def RPC_REJECT : String := "ANCHOR/RPC_REJECT"

end actions

/-- The fields that `handleCall` and `handleResponse` destructure out of
`event.data`.  A field that is absent in JavaScript destructures to
`undefined`, which is falsy exactly like the empty string; absence of a
string field is therefore modelled by `""`.  `args` defaults to `[]` in
the destructuring, so a missing `args` is the empty list. -/
structure WireData where
  action : String
  callID : String
  callName : String
  connectionID : String
  args : List JValue
  result : JValue
  error : JValue
deriving Repr

/-- The parts of a `MessageEvent` that the RPC layer consults.
`trusted` is the verdict of the external collaborator
`isTrustedRemote(event)`; `sourceIsWindow` is the test
`event.source.window === event.source`; `origin` is `event.origin`. -/
structure RPCEvent where
  data : WireData
  trusted : Bool
  sourceIsWindow : Bool
  origin : String
deriving Repr

/-- A response payload built by `handleCall` (rpc.ts lines 369-386):
`action` is always `RPC_RESOLVE`; on success `result` is the JSON clone
of the function's return value and `error` is null; on a thrown error
`error` is the serialized error and `result` is null. -/
structure RPCResponsePayload where
  action : String
  callID : String
  callName : String
  connectionID : String
  result : JValue
  error : JValue
deriving Repr

/-- Result of one accepted call: the argument list the bound function
was invoked with, and the response payload that is sent back. -/
structure RPCCallResult where
  invokedArgs : List JValue
  response : RPCResponsePayload
deriving Repr

/-- Embedding of `handleCall` from `registerLocalMethods` (rpc.ts lines
354-397).  `f` is the bound function `get(schema, methodName)`; a local
method may return normally (`Except.ok`) or throw (`Except.error`).
Returns `none` when the message is ignored (no invocation, no response,
no state change) and `some` when the function is invoked and a response
payload is produced.  The guard order matches the source: action check,
trust check, truthy `callID`/`callName`, `callName` equals the
listener's method name, `connectionID` equals the connection's. -/
def handleCall (f : List JValue → Except JValue JValue)
    (methodName _connectionID : String) (event : RPCEvent) :
    Option RPCCallResult :=
  let d := event.data
  if d.action ≠ actions.RPC_REQUEST then none
  else if ¬ event.trusted then none
  else if d.callID = "" ∨ d.callName = "" then none
  else if d.callName ≠ methodName then none
  else if d.connectionID ≠ _connectionID then none
  else
    some { invokedArgs := d.args
           response :=
             match f d.args with
             | .ok r =>
                 { action := actions.RPC_RESOLVE
                   callID := d.callID
                   callName := d.callName
                   connectionID := d.connectionID
                   result := jsonClone r
                   error := .null }
             | .error e =>
                 { action := actions.RPC_RESOLVE
                   callID := d.callID
                   callName := d.callName
                   connectionID := d.connectionID
                   result := .null
                   error := jsonClone e } }

/-- The outcome observed by the caller of a remote proxy when its
pending promise settles. -/
inductive CallOutcome where
  | resolved (result : JValue) : CallOutcome
  | rejected (error : JValue) : CallOutcome
deriving Repr

/-- Embedding of `handleResponse` inside `createRPC` (rpc.ts lines
442-461).  `_callName`, `_connectionID` and `callID` are the three
correlation keys of this proxy invocation.  Returns `none` when the
message is ignored and `some` when the pending promise is settled.
Guard order matches the source: trust check, truthy response
`callID`/`callName`, `callName`, `connectionID`, `callID` equality,
then `RPC_RESOLVE` resolves with `result` and `RPC_REJECT` rejects with
`error`. -/
def handleResponse (_callName _connectionID callID : String)
    (event : RPCEvent) : Option CallOutcome :=
  let d := event.data
  if ¬ event.trusted then none
  else if d.callID = "" ∨ d.callName = "" then none
  else if d.callName ≠ _callName then none
  else if d.connectionID ≠ _connectionID then none
  else if d.callID ≠ callID then none
  else if d.action = actions.RPC_RESOLVE then some (.resolved d.result)
  else if d.action = actions.RPC_REJECT then some (.rejected d.error)
  else none

/-- The request payload sent by a proxy invocation (rpc.ts lines
464-470): `args` go through the JSON round trip. -/
def mkRPCRequest (_callName _connectionID callID : String)
    (args : List JValue) : WireData :=
  { action := actions.RPC_REQUEST
    args := jsonCloneList args
    callID := callID
    callName := _callName
    connectionID := _connectionID
    result := .null
    error := .null }

/-- Wrap a request payload in a trusted inbound event, as seen by the
peer's local-method listener. -/
def requestEvent (d : WireData) (sourceIsWindow : Bool) (origin : String) :
    RPCEvent :=
  { data := d, trusted := true, sourceIsWindow := sourceIsWindow,
    origin := origin }

/-- Wrap a response payload in a trusted inbound event, as seen by the
caller's response listener. -/
def responseEvent (p : RPCResponsePayload) (sourceIsWindow : Bool)
    (origin : String) : RPCEvent :=
  { data := { action := p.action, callID := p.callID,
              callName := p.callName, connectionID := p.connectionID,
              args := [], result := p.result, error := p.error }
    trusted := true, sourceIsWindow := sourceIsWindow, origin := origin }

/-- Lifecycle state of one proxy invocation's pending promise and its
response listener (`createRPC`, rpc.ts lines 437-496): whether the
`handleResponse` listener is still subscribed on the message channel,
and whether/how the pending promise has settled. -/
structure PendingCallState where
  listenerOn : Bool
  settled : Option CallOutcome
deriving Repr

/-- One inbound message processed by the response listener of a proxy
invocation: if the listener is still subscribed and the message passes
`handleResponse`'s correlation guards, the pending promise settles — at
most once, since resolving or rejecting an already-settled promise is a
no-op.  `handleResponse` contains no `removeEventListener`: settling
leaves the listener subscribed.  The only removal is the unregister
closure pushed onto the connection's `listeners` array (rpc.ts lines
472-482), run by `unregisterRemote` (modelled by
`unregisterPendingCall`). -/
def pendingCallStep (_callName _connectionID callID : String)
    (st : PendingCallState) (event : RPCEvent) : PendingCallState :=
  if ! st.listenerOn then st
  else
    match handleResponse _callName _connectionID callID event with
    | some out =>
        { st with settled :=
            match st.settled with
            | some o => some o
            | none => some out }
    | none => st

/-- The unregister closure for a proxy invocation's response listener,
pushed onto the connection's `listeners` array and invoked by
`unregisterRemote` when the connection is closed. -/
def unregisterPendingCall (st : PendingCallState) : PendingCallState :=
  { st with listenerOn := false }

/-! ## Host multiplexer (host.ts) -/

/-- A guest reference held by the host: `HTMLIFrameElement | Worker`
(the `null` guest used by `serve` is `Option.none` at use sites).  For
an iframe, `srcOrigin` is the origin computed by the external helper
`getOriginFromURL(iframe.getAttribute('src'))` (`none` when it yields
no origin) and `contentWindow` identifies the iframe's content window
(`none` when unset). -/
inductive GuestRef where
  | iframe (srcOrigin : Option String) (contentWindow : Option Nat) : GuestRef
  | workerRef (id : Nat) : GuestRef
deriving Repr, DecidableEq

/-- The parts of an inbound message event that `mainListener` and
`isValidTarget` consult.  `source` identifies `event.source`; events
with a falsy `data`/`source`/`origin` make `mainListener` throw before
any dispatch and are outside this model. -/
structure HandshakeEvent where
  action : String
  origin : String
  source : Nat
deriving Repr, DecidableEq

/-- Embedding of `isValidTarget` (host.ts lines 34-41): the event's
origin must equal the origin of the iframe's `src` attribute and the
event's source must be the iframe's `contentWindow`. -/
def isValidTarget (srcOrigin : Option String) (contentWindow : Option Nat)
    (event : HandshakeEvent) : Bool :=
  let hasProperOrigin := some event.origin == srcOrigin
  let hasProperSource := some event.source == contentWindow
  hasProperOrigin && hasProperSource

/-- The `continue` guard in `mainListener`'s guest loop (host.ts lines
166-173): an iframe guest failing `isValidTarget` is skipped; worker
and null guests are never skipped. -/
def skipsGuest (guest : Option GuestRef) (event : HandshakeEvent) : Bool :=
  match guest with
  | some (.iframe o cw) => ! isValidTarget o cw event
  | _ => false

/-- One host record (the value stored in the process-wide `hosts` map,
host.ts lines 19-32 and 122-246): the pending-connection counter, the
live connection map (modelled by the list of connection identifiers it
holds), and the per-guest listener sets (each listener identified by
the id of the `connect` caller that registered it, in insertion order).
`nextConnectionId` is a freshness counter modelling `uuidv4()`:
each negotiation mints the counter's value and bumps it. -/
structure HostRec where
  pendingConnections : Int
  nextConnectionId : Nat
  connections : List Nat
  connectionListeners : List (Option GuestRef × List Nat)
deriving Repr, DecidableEq

/-- The empty host record created by `findOrCreateHostFor`. -/
def emptyHostRec : HostRec :=
  { pendingConnections := 0, nextConnectionId := 0, connections := [],
    connectionListeners := [] }

/-- Run every listener of one guest's set on a routed handshake event
(host.ts lines 180-182 with the listener body of lines 207-219): each
listener negotiates its own connection — mints a fresh `connectionID`
and stores the connection in the host's connection map
(`makeConnectionNegotiator`, lines 53-117) — clamp-decrements
`pendingConnections` via `Math.max(pendingConnections - 1, 0)`, removes
itself from the guest's set, and delivers the connection to its
caller's callback.  Returns the updated
(pending, next-id, connections) state and the list of
`(caller, connectionID)` deliveries. -/
def runListeners :
    Int → Nat → List Nat → List Nat →
    Int × Nat × List Nat × List (Nat × Nat)
  | pending, next, conns, [] => (pending, next, conns, [])
  | pending, next, conns, caller :: rest =>
      let cid := next
      let pending1 := max (pending - 1) 0
      let r := runListeners pending1 (next + 1) (conns ++ [cid]) rest
      (r.1, r.2.1, r.2.2.1, (caller, cid) :: r.2.2.2)

/-- The guest loop of `mainListener` for a handshake-request event
(host.ts lines 165-183): iterate the `(guest, listener-set)` pairs,
skip an iframe guest that fails `isValidTarget`, and fan the event out
to every listener of each remaining guest.  Listeners that ran removed
themselves, so a processed guest's set becomes empty; a skipped guest's
set is untouched. -/
def dispatchHandshake (event : HandshakeEvent) :
    List (Option GuestRef × List Nat) → Int → Nat → List Nat →
    List (Option GuestRef × List Nat) × Int × Nat × List Nat ×
      List (Nat × Nat)
  | [], pending, next, conns => ([], pending, next, conns, [])
  | (g, ls) :: rest, pending, next, conns =>
      if skipsGuest g event then
        let r := dispatchHandshake event rest pending next conns
        ((g, ls) :: r.1, r.2.1, r.2.2.1, r.2.2.2.1, r.2.2.2.2)
      else
        let r1 := runListeners pending next conns ls
        let r2 := dispatchHandshake event rest r1.1 r1.2.1 r1.2.2.1
        ((g, []) :: r2.1, r2.2.1, r2.2.2.1, r2.2.2.2.1,
          r1.2.2.2 ++ r2.2.2.2.2)

/-- `mainListener` on an inbound event (host.ts lines 158-189): a
handshake-request action is fanned out to the registered guests'
listener sets; any other action leaves the record's negotiation state
unchanged (it only reaches service-worker downstream receivers).
Returns the updated record and the `(caller, connectionID)`
deliveries. -/
def mainListener (event : HandshakeEvent) (st : HostRec) :
    HostRec × List (Nat × Nat) :=
  if event.action = actions.HANDSHAKE_REQUEST then
    let r := dispatchHandshake event st.connectionListeners
      st.pendingConnections st.nextConnectionId st.connections
    ({ pendingConnections := r.2.1, nextConnectionId := r.2.2.1,
       connections := r.2.2.2.1, connectionListeners := r.1 },
     r.2.2.2.2)
  else (st, [])

/-- Find-or-create of the listener set for a guest inside
`host.connect` (host.ts lines 200-205) followed by adding the new
listener to the set (line 221). -/
def addListener (g : Option GuestRef) (caller : Nat) :
    List (Option GuestRef × List Nat) →
    List (Option GuestRef × List Nat)
  | [] => [(g, [caller])]
  | (g2, ls) :: rest =>
      if g2 = g then (g2, ls ++ [caller]) :: rest
      else (g2, ls) :: addListener g caller rest

/-- `host.connect` (host.ts lines 193-222): increment
`pendingConnections` by one and register a listener for this caller in
the guest's listener set. -/
def hostConnect (g : Option GuestRef) (caller : Nat) (st : HostRec) :
    HostRec :=
  { st with
    pendingConnections := st.pendingConnections + 1
    connectionListeners := addListener g caller st.connectionListeners }

/-- `host.disconnect` (host.ts lines 223-229): close the named
connection if present (deleting it from the connection map), no-op
otherwise. -/
def hostDisconnect (cid : Nat) (st : HostRec) : HostRec :=
  { st with connections := st.connections.filter (fun c => c ≠ cid) }

/-- The operations that mutate one host record's negotiation state. -/
inductive HostOp where
  | connectOp (g : Option GuestRef) (caller : Nat) : HostOp
  | messageOp (event : HandshakeEvent) : HostOp
  | disconnectOp (cid : Nat) : HostOp
deriving Repr

/-- Apply one host operation to a record. -/
def applyHostOp (st : HostRec) : HostOp → HostRec
  | .connectOp g caller => hostConnect g caller st
  | .messageOp event => (mainListener event st).1
  | .disconnectOp cid => hostDisconnect cid st

/-- The key of the process-wide `hosts` map: a messaging target — the
page's window, or a worker (service-worker global scopes behave like
another target kind; they do not matter for the claims below). -/
inductive TargetId where
  | window : TargetId
  | workerTarget (id : Nat) : TargetId
deriving Repr, DecidableEq

/-- `isWorker(guest) ? (guest as Worker) : window` in the public
`connect` (host.ts line 264). -/
def targetFor : GuestRef → TargetId
  | .iframe _ _ => .window
  | .workerRef n => .workerTarget n

/-- Lookup in the process-wide `hosts` map. -/
def lookupHost (t : TargetId) :
    List (TargetId × HostRec) → Option HostRec
  | [] => none
  | (t2, r) :: rest => if t2 = t then some r else lookupHost t rest

/-- Store a record under a target in the process-wide `hosts` map,
appending a new entry when the target is absent (this is
`findOrCreateHostFor`'s `hosts.set`, which also subscribes the
record's `mainListener` on the target — record existence and listener
subscription coincide, host.ts lines 242-243). -/
def setHost (t : TargetId) (r : HostRec) :
    List (TargetId × HostRec) → List (TargetId × HostRec)
  | [] => [(t, r)]
  | (t2, r2) :: rest =>
      if t2 = t then (t2, r) :: rest else (t2, r2) :: setHost t r rest

/-- The public `connect` entry point up to the registration of its
pending handshake (host.ts lines 257-277): a falsy guest throws
`'a target is required'` (an async function, so the caller sees a
rejected promise) *before* `findOrCreateHostFor` runs, leaving the
process-wide `hosts` map untouched; otherwise the guest's target record
is found or created and `host.connect` registers the caller. -/
def publicConnect (guest : Option GuestRef) (caller : Nat)
    (hosts : List (TargetId × HostRec)) :
    Except String Unit × List (TargetId × HostRec) :=
  match guest with
  | none => (.error "a target is required", hosts)
  | some g =>
      let t := targetFor g
      let r0 := (lookupHost t hosts).getD emptyHostRec
      let r1 := hostConnect (some g) caller r0
      (.ok (), setHost t r1 hosts)

/-! ## Guest connector (guest.ts) -/

/-- `REQUEST_INTERVAL` (guest.ts line 5). -/
def REQUEST_INTERVAL : Nat := 600

/-- `TIMEOUT_INTERVAL` (guest.ts line 6). -/
def TIMEOUT_INTERVAL : Nat := 3000

/-- An inbound message event as seen by the guest's
`handleHandshakeResponse`, tagged with its delivery time in
milliseconds since `connect()` was called. -/
structure GuestEvent where
  action : String
  source : Nat
  connectionID : String
  time : Nat
deriving Repr, DecidableEq

/-- The guard of `handleHandshakeResponse` (guest.ts lines 27-28): the
event is acted on iff its action is `HANDSHAKE_REPLY` and its source is
exactly the connect target. -/
def matchesHandshakeReply (target : Nat) (ev : GuestEvent) : Bool :=
  (ev.action == actions.HANDSHAKE_REPLY) && (ev.source == target)

/-- How the guest `connect()` promise settles. -/
inductive GuestConnectResult where
  | resolvedConn (connectionID : String) : GuestConnectResult
  | rejectedWith (msg : String) : GuestConnectResult
deriving Repr, DecidableEq

/-- Settlement of the guest `connect()` promise over a trace of inbound
events ordered by delivery time: the first event passing
`handleHandshakeResponse`'s guard resolves the promise with the
connection — provided it is delivered before the `TIMEOUT_INTERVAL`
timer fires; otherwise the timer sees `connected === false` and rejects
with `'connection timeout'` (guest.ts lines 82-86), and a promise
settles only once, so a later reply cannot overwrite the rejection. -/
def guestConnectOutcome (target : Nat) (trace : List GuestEvent) :
    GuestConnectResult :=
  match trace.find? (matchesHandshakeReply target) with
  | some ev =>
      if ev.time < TIMEOUT_INTERVAL then .resolvedConn ev.connectionID
      else .rejectedWith "connection timeout"
  | none => .rejectedWith "connection timeout"

/-- Resource state of one guest `connect()` invocation: the `connected`
flag, whether the handshake retry interval is still scheduled, and
whether `handleHandshakeResponse` is still subscribed. -/
structure GuestConnState where
  connected : Bool
  timerActive : Bool
  replyListenerOn : Bool
deriving Repr, DecidableEq

/-- Events acting on a guest `connect()`'s resources. -/
inductive GuestOp where
  | deliver (ev : GuestEvent) : GuestOp
  | tick : GuestOp
  | timeoutFire : GuestOp
  | close : GuestOp
deriving Repr, DecidableEq

/-- Resource transitions of the guest connector (guest.ts):
`deliver`: if the reply listener is subscribed and the event passes its
guard, `connected` becomes true (lines 26-59).
`tick`: the retry interval's callback clears the interval when
`connected` is already true, else re-posts the handshake request and
changes nothing (lines 70-79).
`timeoutFire`: the timeout callback only rejects the promise when not
connected; it releases no resource (lines 82-86).
`close`: the connection's `close` removes the reply listener and the
RPC listeners; it does not touch the interval (lines 48-52). -/
def guestStep (target : Nat) (st : GuestConnState) :
    GuestOp → GuestConnState
  | .deliver ev =>
      if st.replyListenerOn && matchesHandshakeReply target ev then
        { st with connected := true }
      else st
  | .tick => if st.connected then { st with timerActive := false } else st
  | .timeoutFire => st
  | .close => { st with replyListenerOn := false }

/-- Run a sequence of guest operations. -/
def guestRun (target : Nat) (st : GuestConnState)
    (ops : List GuestOp) : GuestConnState :=
  ops.foldl (guestStep target) st

/-- The resource state right after `connect()` has subscribed its reply
listener and started the retry interval (guest.ts lines 62-79). -/
def guestInit : GuestConnState :=
  { connected := false, timerActive := true, replyListenerOn := true }

/-- The four outbound channels a local method's response can take
(rpc.ts lines 388-396). -/
inductive ResponseChannel where
  | adapterPost : ResponseChannel
  | workerGlobalPost : ResponseChannel
  | sourceWithOrigin (origin : String) : ResponseChannel
  | sourceUntargeted : ResponseChannel
deriving Repr, DecidableEq

/-- The response-delivery if-chain at the end of `handleCall` (rpc.ts
lines 388-396).  `hasReceiver`: a `messageReceiver` adapter was passed;
`receiverHasPost`: that adapter exposes its own `postMessage`
(`messageReceiver && messageReceiver.postMessage`); `workerCtx`: the
external `isWorker()` predicate says the context is a worker (then the
global `postMessage` is used); otherwise the originating event's source
is used — with the event's origin when `event.source.window ===
event.source` (the source is a window), untargeted otherwise. -/
def selectResponseChannel (hasReceiver receiverHasPost workerCtx : Bool)
    (event : RPCEvent) : ResponseChannel :=
  if hasReceiver && receiverHasPost then .adapterPost
  else if workerCtx then .workerGlobalPost
  else if event.sourceIsWindow then .sourceWithOrigin event.origin
  else .sourceUntargeted

end Rimless

namespace Rimless

/-! ## Theorems -/

/-- C3.  Local-method request filtering: the listener registered by
`registerLocalMethods` for path `p` under connection identifier `c`
invokes the bound function and produces a response exactly when the
inbound message's action is the call-request action, the event passes
the `isTrustedRemote` check, the message carries a truthy call
identifier and a truthy method name, the method name equals `p`, and
the connection identifier equals `c`; a message failing any condition
yields `none` — no invocation, no response, no state change. -/
theorem handleCall_request_filtering
    (f : List JValue → Except JValue JValue) (p c : String)
    (event : RPCEvent) :
    (handleCall f p c event).isSome ↔
      (event.data.action = actions.RPC_REQUEST ∧ event.trusted = true ∧
       event.data.callID ≠ "" ∧ event.data.callName ≠ "" ∧
       event.data.callName = p ∧ event.data.connectionID = c) := by
  unfold handleCall
  by_cases h1 : event.data.action = actions.RPC_REQUEST <;>
  by_cases h2 : event.trusted = true <;>
  by_cases h3 : event.data.callID = "" <;>
  by_cases h4 : event.data.callName = "" <;>
  by_cases h5 : event.data.callName = p <;>
  by_cases h6 : event.data.connectionID = c <;>
  simp_all

/-- C7.  Response delivery target priority: the response payload of a
finished local call goes out on exactly the first applicable channel —
the adapter's own `postMessage` when it exposes one; else the global
`postMessage` when the context is a worker; else the originating
event's source scoped by the event's origin when that source is a
window; else the source untargeted. -/
theorem responseChannel_priority
    (hasReceiver receiverHasPost workerCtx : Bool) (event : RPCEvent) :
    (selectResponseChannel hasReceiver receiverHasPost workerCtx event =
        .adapterPost ↔ (hasReceiver = true ∧ receiverHasPost = true)) ∧
    (selectResponseChannel hasReceiver receiverHasPost workerCtx event =
        .workerGlobalPost ↔
      (¬(hasReceiver = true ∧ receiverHasPost = true) ∧
        workerCtx = true)) ∧
    (selectResponseChannel hasReceiver receiverHasPost workerCtx event =
        .sourceWithOrigin event.origin ↔
      (¬(hasReceiver = true ∧ receiverHasPost = true) ∧
        workerCtx = false ∧ event.sourceIsWindow = true)) ∧
    (selectResponseChannel hasReceiver receiverHasPost workerCtx event =
        .sourceUntargeted ↔
      (¬(hasReceiver = true ∧ receiverHasPost = true) ∧
        workerCtx = false ∧ event.sourceIsWindow = false)) := by
  cases hasReceiver <;> cases receiverHasPost <;> cases workerCtx <;>
    rcases event with ⟨d, t, siw, o⟩ <;> cases siw <;>
      simp [selectResponseChannel]

/-- C9.  Null-guest rejection at the public interface: `connect` with a
null/undefined guest rejects with `'a target is required'` before
`findOrCreateHostFor` runs — the process-wide target-to-record map
comes back unchanged, so no host record is created and no message
listener is added. -/
theorem publicConnect_null_guest (caller : Nat)
    (hosts : List (TargetId × HostRec)) :
    publicConnect none caller hosts =
      (.error "a target is required", hosts) := rfl

/-- C1.  Round-trip of an RPC call: invoking the remote proxy for
method `m` on connection `c` with argument list `A` sends a call
request carrying the JSON clone of `A`; the peer's local-method
listener invokes the bound function `f` on exactly that clone and
answers with the JSON clone of `f`'s return value; the caller's
response listener then resolves the pending promise with that clone.
`callID` is the minted call identifier (`uuidv4()` never yields `""`),
and `m ≠ ""` since exposed method paths are non-empty. -/
theorem rpc_round_trip (f : List JValue → Except JValue JValue)
    (m c callID : String) (A : List JValue) (r : JValue)
    (hkey : callID ≠ "") (hm : m ≠ "")
    (hret : f (jsonCloneList A) = .ok r)
    (siw1 siw2 : Bool) (o1 o2 : String) :
    handleCall f m c (requestEvent (mkRPCRequest m c callID A) siw1 o1) =
      some { invokedArgs := jsonCloneList A
             response :=
               { action := actions.RPC_RESOLVE, callID := callID,
                 callName := m, connectionID := c,
                 result := jsonClone r, error := .null } } ∧
    handleResponse m c callID
        (responseEvent
          { action := actions.RPC_RESOLVE, callID := callID,
            callName := m, connectionID := c,
            result := jsonClone r, error := .null } siw2 o2) =
      some (.resolved (jsonClone r)) := by
  constructor
  · simp [handleCall, requestEvent, mkRPCRequest, hkey, hm, hret]
  · simp [handleResponse, responseEvent, hkey, hm, actions.RPC_RESOLVE,
      actions.RPC_REJECT]

/-- Witness for C1 at the spec's example: `add(2, 3)` resolving with
`5`. -/
theorem rpc_round_trip_witness :
    (("call-1" : String) ≠ "" ∧ ("add" : String) ≠ "" ∧
      ((fun _ => .ok (.num 5)) : List JValue → Except JValue JValue)
          (jsonCloneList [JValue.num 2, JValue.num 3]) = .ok (.num 5)) ∧
    (handleCall ((fun _ => .ok (.num 5)) :
          List JValue → Except JValue JValue) "add" "conn-1"
        (requestEvent (mkRPCRequest "add" "conn-1" "call-1"
            [JValue.num 2, JValue.num 3]) true "origin") =
      some { invokedArgs := jsonCloneList [JValue.num 2, JValue.num 3]
             response :=
               { action := actions.RPC_RESOLVE, callID := "call-1",
                 callName := "add", connectionID := "conn-1",
                 result := jsonClone (.num 5), error := .null } } ∧
     handleResponse "add" "conn-1" "call-1"
        (responseEvent
          { action := actions.RPC_RESOLVE, callID := "call-1",
            callName := "add", connectionID := "conn-1",
            result := jsonClone (.num 5), error := .null } true "origin") =
      some (.resolved (jsonClone (.num 5)))) :=
  ⟨⟨by decide, by decide, rfl⟩,
   rpc_round_trip ((fun _ => .ok (.num 5)) :
       List JValue → Except JValue JValue) "add" "conn-1" "call-1"
     [JValue.num 2, JValue.num 3] (.num 5) (by decide) (by decide) rfl
     true true "origin" "origin"⟩

/-- C6 counterexample: a resolve response matching all correlation
fields settles the pending call, yet the response listener is still
subscribed afterwards — `handleResponse` contains no
`removeEventListener`, so the settled call's listener is *not* removed
from the message channel (it is released only by `unregisterRemote`). -/
theorem pendingCall_listener_kept_after_settle :
    (pendingCallStep "m" "c" "k"
        { listenerOn := true, settled := none }
        (responseEvent
          { action := actions.RPC_RESOLVE, callID := "k", callName := "m",
            connectionID := "c", result := .num 7, error := .null }
          true "o")).settled = some (.resolved (.num 7)) ∧
    (pendingCallStep "m" "c" "k"
        { listenerOn := true, settled := none }
        (responseEvent
          { action := actions.RPC_RESOLVE, callID := "k", callName := "m",
            connectionID := "c", result := .num 7, error := .null }
          true "o")).listenerOn = true := ⟨rfl, rfl⟩

/-- C6 amended.  A matching resolve or reject settles the pending call
at most once (a second settlement cannot overwrite the first, by
promise semantics), but the response listener registered for
(method name, connection identifier, call identifier) stays subscribed
— it is removed only by the connection's unregister closure
(`unregisterRemote`/`close`); any message not matching all correlation
fields is ignored and changes nothing. -/
theorem pendingCall_settlement (mN cN kN : String)
    (st : PendingCallState) (event : RPCEvent)
    (hOn : st.listenerOn = true) :
    ((∀ out, handleResponse mN cN kN event = some out →
        pendingCallStep mN cN kN st event =
          { listenerOn := true, settled := some (st.settled.getD out) }) ∧
      (handleResponse mN cN kN event = none →
        pendingCallStep mN cN kN st event = st)) ∧
    (unregisterPendingCall st).listenerOn = false := by
  obtain ⟨lOn, s⟩ := st
  simp only [PendingCallState.listenerOn] at hOn
  subst hOn
  refine ⟨⟨?_, ?_⟩, rfl⟩
  · intro out hout
    cases s <;> simp [pendingCallStep, hout, Option.getD]
  · intro hnone
    simp [pendingCallStep, hnone]

/-- Witness for C6's amended theorem: a matching reject settles a fresh
pending call and leaves the listener subscribed. -/
theorem pendingCall_settlement_witness :
    ({ listenerOn := true, settled := none } : PendingCallState).listenerOn
        = true ∧
    (((∀ out, handleResponse "m2" "c2" "k2"
          (responseEvent
            { action := actions.RPC_REJECT, callID := "k2",
              callName := "m2", connectionID := "c2", result := .null,
              error := .str "boom" } true "o") = some out →
        pendingCallStep "m2" "c2" "k2"
            { listenerOn := true, settled := none }
            (responseEvent
              { action := actions.RPC_REJECT, callID := "k2",
                callName := "m2", connectionID := "c2", result := .null,
                error := .str "boom" } true "o") =
          { listenerOn := true,
            settled := some ((Option.none (α := CallOutcome)).getD out) }) ∧
      (handleResponse "m2" "c2" "k2"
          (responseEvent
            { action := actions.RPC_REJECT, callID := "k2",
              callName := "m2", connectionID := "c2", result := .null,
              error := .str "boom" } true "o") = none →
        pendingCallStep "m2" "c2" "k2"
            { listenerOn := true, settled := none }
            (responseEvent
              { action := actions.RPC_REJECT, callID := "k2",
                callName := "m2", connectionID := "c2", result := .null,
                error := .str "boom" } true "o") =
          { listenerOn := true, settled := none })) ∧
    (unregisterPendingCall
        { listenerOn := true, settled := none }).listenerOn = false) :=
  ⟨rfl,
   pendingCall_settlement "m2" "c2" "k2"
     { listenerOn := true, settled := none }
     (responseEvent
       { action := actions.RPC_REJECT, callID := "k2", callName := "m2",
         connectionID := "c2", result := .null, error := .str "boom" }
       true "o") rfl⟩

/-- C2.  Multi-resolution of one handshake: with two `connect()`
callers `a` and `b` registered against the same guest `g` before any
handshake request, a single inbound handshake-request message (not
skipped for `g` by the iframe guard) produces two connections with two
distinct connection identifiers, delivers one to each caller's callback
in registration order, and empties the guest's pending listener set. -/
theorem two_connects_one_handshake (g : Option GuestRef) (a b : Nat)
    (event : HandshakeEvent)
    (hact : event.action = actions.HANDSHAKE_REQUEST)
    (hskip : skipsGuest g event = false) :
    ∃ c1 c2 : Nat, c1 ≠ c2 ∧
      mainListener event (hostConnect g b (hostConnect g a emptyHostRec)) =
        ({ pendingConnections := 0, nextConnectionId := 2,
           connections := [c1, c2], connectionListeners := [(g, [])] },
         [(a, c1), (b, c2)]) := by
  refine ⟨0, 1, by decide, ?_⟩
  simp [mainListener, hact, hskip, dispatchHandshake, runListeners,
    hostConnect, addListener, emptyHostRec]

/-- Witness for C2: a worker guest (never skipped) and a concrete
handshake-request event. -/
theorem two_connects_one_handshake_witness :
    ({ action := actions.HANDSHAKE_REQUEST, origin := "https://h",
       source := 7 } : HandshakeEvent).action =
        actions.HANDSHAKE_REQUEST ∧
    skipsGuest (some (.workerRef 3))
      { action := actions.HANDSHAKE_REQUEST, origin := "https://h",
        source := 7 } = false ∧
    ∃ c1 c2 : Nat, c1 ≠ c2 ∧
      mainListener
          { action := actions.HANDSHAKE_REQUEST, origin := "https://h",
            source := 7 }
          (hostConnect (some (.workerRef 3)) 11
            (hostConnect (some (.workerRef 3)) 10 emptyHostRec)) =
        ({ pendingConnections := 0, nextConnectionId := 2,
           connections := [c1, c2],
           connectionListeners := [(some (.workerRef 3), [])] },
         [(10, c1), (11, c2)]) :=
  ⟨rfl, rfl,
   two_connects_one_handshake (some (.workerRef 3)) 10 11
     { action := actions.HANDSHAKE_REQUEST, origin := "https://h",
       source := 7 } rfl rfl⟩

/-- C8.  Iframe origin/source guard: for every inbound
handshake-request event and every registered iframe guest, if the
event's origin differs from the origin of the iframe's `src` attribute
or the event's source differs from the iframe's `contentWindow`, no
negotiation happens for that guest.  First conjunct: wherever that
guest is registered, its pending listener entry survives the dispatch
untouched (no listener consumed).  Second conjunct: the resulting
counter state, connection map and deliveries are exactly those of the
same record with that guest's entry absent — the guest contributes no
connection, no decrement and no delivery.  Third conjunct: when that
iframe is the only registered guest, the whole record comes back
unchanged with no deliveries (connection count stays zero). -/
theorem iframe_guard_blocks_negotiation (o : Option String)
    (cw : Option Nat) (ls : List Nat) (event : HandshakeEvent)
    (hinvalid : isValidTarget o cw event = false) :
    (∀ (pairs : List (Option GuestRef × List Nat)) (pending : Int)
        (next : Nat) (conns : List Nat),
        (some (.iframe o cw), ls) ∈ pairs →
        (some (.iframe o cw), ls) ∈
          (dispatchHandshake event pairs pending next conns).1) ∧
    (∀ (pre post : List (Option GuestRef × List Nat)) (pending : Int)
        (next : Nat) (conns : List Nat),
        (dispatchHandshake event
            (pre ++ (some (.iframe o cw), ls) :: post)
            pending next conns).2 =
          (dispatchHandshake event (pre ++ post) pending next conns).2) ∧
    (∀ (pending : Int) (next : Nat) (conns : List Nat),
        mainListener event
          { pendingConnections := pending, nextConnectionId := next,
            connections := conns,
            connectionListeners := [(some (.iframe o cw), ls)] } =
          ({ pendingConnections := pending, nextConnectionId := next,
             connections := conns,
             connectionListeners := [(some (.iframe o cw), ls)] },
           [])) := by
  have hskip : skipsGuest (some (.iframe o cw)) event = true := by
    simp [skipsGuest, hinvalid]
  refine ⟨?_, ?_, ?_⟩
  · intro pairs
    induction pairs with
    | nil =>
        intro pending next conns hmem
        exact absurd hmem (List.not_mem_nil _)
    | cons pr rest ih =>
        intro pending next conns hmem
        obtain ⟨g2, ls2⟩ := pr
        rcases List.mem_cons.mp hmem with heq | htail
        · injection heq with h1 h2
          subst h1
          subst h2
          simp [dispatchHandshake, hskip]
        · by_cases hs2 : skipsGuest g2 event = true
          · simp only [dispatchHandshake, hs2, if_pos]
            exact List.mem_cons_of_mem _ (ih _ _ _ htail)
          · simp only [dispatchHandshake, hs2, if_neg,
              Bool.false_eq_true, not_false_eq_true]
            exact List.mem_cons_of_mem _ (ih _ _ _ htail)
  · intro pre
    induction pre with
    | nil =>
        intro post pending next conns
        simp [dispatchHandshake, hskip]
    | cons pr pre2 ih =>
        intro post pending next conns
        obtain ⟨g2, ls2⟩ := pr
        by_cases hs2 : skipsGuest g2 event = true
        · simp only [List.cons_append, dispatchHandshake, hs2, if_pos,
            List.append_eq]
          rw [ih post pending next conns]
        · simp only [List.cons_append, dispatchHandshake, hs2, if_neg,
            Bool.false_eq_true, not_false_eq_true, List.append_eq]
          rw [ih post _ _ _]
  · intro pending next conns
    unfold mainListener
    split
    · simp [dispatchHandshake, hskip]
    · rfl

/-- Witness for C8: an iframe whose `src` origin does not match the
event's origin (the sources do match) — applied to a record where that
iframe is the only registered guest, the record with no connections
stays at zero connections with no deliveries. -/
theorem iframe_guard_blocks_negotiation_witness :
    isValidTarget (some "https://child.example") (some 4)
      { action := actions.HANDSHAKE_REQUEST, origin := "https://evil.example",
        source := 4 } = false ∧
    mainListener
        { action := actions.HANDSHAKE_REQUEST,
          origin := "https://evil.example", source := 4 }
        { pendingConnections := 1, nextConnectionId := 0,
          connections := [],
          connectionListeners :=
            [(some (.iframe (some "https://child.example") (some 4)), [5])] } =
      ({ pendingConnections := 1, nextConnectionId := 0,
         connections := [],
         connectionListeners :=
           [(some (.iframe (some "https://child.example") (some 4)), [5])] },
       []) :=
  ⟨by decide,
   (iframe_guard_blocks_negotiation (some "https://child.example") (some 4)
       [5]
       { action := actions.HANDSHAKE_REQUEST,
         origin := "https://evil.example", source := 4 }
       (by decide)).2.2 1 0 []⟩

/-- Each listener's clamp-decrement `Math.max(pendingConnections - 1, 0)`
keeps the pending counter non-negative. -/
theorem runListeners_pending_nonneg (ls : List Nat) :
    ∀ (pending : Int) (next : Nat) (conns : List Nat), 0 ≤ pending →
      0 ≤ (runListeners pending next conns ls).1 := by
  induction ls with
  | nil => intro p n c hp; simpa [runListeners] using hp
  | cons x xs ih =>
      intro p n c _
      simp only [runListeners]
      exact ih _ _ _ (le_max_right _ _)

/-- Fanning a handshake event out over the guests' listener sets keeps
the pending counter non-negative. -/
theorem dispatchHandshake_pending_nonneg (event : HandshakeEvent)
    (pairs : List (Option GuestRef × List Nat)) :
    ∀ (pending : Int) (next : Nat) (conns : List Nat), 0 ≤ pending →
      0 ≤ (dispatchHandshake event pairs pending next conns).2.1 := by
  induction pairs with
  | nil => intro p n c hp; simpa [dispatchHandshake] using hp
  | cons pr rest ih =>
      intro p n c hp
      obtain ⟨g, ls⟩ := pr
      by_cases hs : skipsGuest g event = true
      · simp only [dispatchHandshake, hs, if_pos]
        exact ih _ _ _ hp
      · simp only [dispatchHandshake, hs, if_neg, Bool.false_eq_true,
          not_false_eq_true]
        exact ih _ _ _ (runListeners_pending_nonneg ls _ _ _ hp)

/-- Every host operation preserves non-negativity of the pending
counter. -/
theorem applyHostOp_pending_nonneg (op : HostOp) (st : HostRec)
    (h : 0 ≤ st.pendingConnections) :
    0 ≤ (applyHostOp st op).pendingConnections := by
  cases op with
  | connectOp g caller =>
      simp only [applyHostOp, hostConnect]
      omega
  | messageOp event =>
      simp only [applyHostOp, mainListener]
      split
      · exact dispatchHandshake_pending_nonneg event _ _ _ _ h
      · exact h
  | disconnectOp cid => exact h

/-- C10.  Pending-count non-negativity: starting from the freshly
created host record, `pendingConnections` stays non-negative after any
sequence of host operations; each `connect()` increments it by exactly
one, and each handshake resolution decrements it through
`Math.max(pendingConnections - 1, 0)`. -/
theorem pendingConnections_nonneg (ops : List HostOp) :
    0 ≤ (ops.foldl applyHostOp emptyHostRec).pendingConnections ∧
    (∀ (st : HostRec) (g : Option GuestRef) (caller : Nat),
        (hostConnect g caller st).pendingConnections =
          st.pendingConnections + 1) ∧
    (∀ (pending : Int) (next : Nat) (conns : List Nat) (caller : Nat),
        (runListeners pending next conns [caller]).1 =
          max (pending - 1) 0) := by
  refine ⟨?_, fun st g caller => rfl, fun p n c caller => rfl⟩
  have key : ∀ (l : List HostOp) (st : HostRec),
      0 ≤ st.pendingConnections →
      0 ≤ (l.foldl applyHostOp st).pendingConnections := by
    intro l
    induction l with
    | nil => intro st h; simpa using h
    | cons op rest ih =>
        intro st h
        exact ih _ (applyHostOp_pending_nonneg op st h)
  exact key ops emptyHostRec (by simp [emptyHostRec])

/-- C4.  Guest handshake timeout: if no inbound event passing
`handleHandshakeResponse`'s guard — action `HANDSHAKE_REPLY` and source
exactly the given target — is delivered within `TIMEOUT_INTERVAL`
(3000 ms) of the `connect()` call, the returned promise rejects with
`'connection timeout'`. -/
theorem guest_timeout_rejects (target : Nat) (trace : List GuestEvent)
    (h : ∀ ev ∈ trace, matchesHandshakeReply target ev = true →
        TIMEOUT_INTERVAL ≤ ev.time) :
    guestConnectOutcome target trace =
      .rejectedWith "connection timeout" := by
  unfold guestConnectOutcome
  cases hf : trace.find? (matchesHandshakeReply target) with
  | none => rfl
  | some ev =>
      have hmem : ev ∈ trace := List.mem_of_find?_eq_some hf
      have hmatch : matchesHandshakeReply target ev = true :=
        List.find?_some hf
      have hle := h ev hmem hmatch
      simp only []
      rw [if_neg (Nat.not_lt.mpr hle)]

/-- Witness for C4: a mismatching message inside the window and a
matching reply arriving only at 4000 ms — `connect()` rejects with the
timeout indication. -/
theorem guest_timeout_rejects_witness :
    (∀ ev ∈ [({ action := actions.RPC_RESOLVE, source := 1,
                connectionID := "", time := 100 } : GuestEvent),
              { action := actions.HANDSHAKE_REPLY, source := 1,
                connectionID := "c9", time := 4000 }],
        matchesHandshakeReply 1 ev = true →
          TIMEOUT_INTERVAL ≤ ev.time) ∧
    guestConnectOutcome 1
        [{ action := actions.RPC_RESOLVE, source := 1,
           connectionID := "", time := 100 },
         { action := actions.HANDSHAKE_REPLY, source := 1,
           connectionID := "c9", time := 4000 }] =
      .rejectedWith "connection timeout" :=
  ⟨by decide,
   guest_timeout_rejects 1
     [{ action := actions.RPC_RESOLVE, source := 1,
        connectionID := "", time := 100 },
      { action := actions.HANDSHAKE_REPLY, source := 1,
        connectionID := "c9", time := 4000 }] (by decide)⟩

/-- C5 counterexample: a run that never calls `close()` nevertheless
releases the retry timer — after a matching handshake reply is
delivered, the interval's own next tick clears the interval (guest.ts
line 71).  So the retry timer is not released "only by an explicit
`close()`". -/
theorem guest_timer_cleared_without_close :
    GuestOp.close ∉
      [GuestOp.deliver
        { action := actions.HANDSHAKE_REPLY, source := 1,
          connectionID := "c", time := 100 }, GuestOp.tick] ∧
    (guestRun 1 guestInit
        [GuestOp.deliver
          { action := actions.HANDSHAKE_REPLY, source := 1,
            connectionID := "c", time := 100 }, GuestOp.tick]).timerActive
      = false := ⟨by decide, by decide⟩

/-- C5 amended.  The handshake-reply listener is released only by an
explicit `close()` — no other operation unsubscribes it — while the
retry timer is cleared only by its own tick after a connection is
established; `close()` itself does not touch the timer.  In particular
a `connect()` that times out (no matching reply delivered and no close)
releases nothing: its resource state is unchanged, so the reply
listener stays subscribed and the retry timer stays scheduled. -/
theorem guest_resource_release (target : Nat) (st : GuestConnState)
    (ops : List GuestOp) (hconn : st.connected = false)
    (hops : ∀ op ∈ ops, op ≠ GuestOp.close ∧
        ∀ ev, op = GuestOp.deliver ev →
          matchesHandshakeReply target ev = false) :
    guestRun target st ops = st ∧
    (∀ (s : GuestConnState) (op : GuestOp), op ≠ GuestOp.close →
        (guestStep target s op).replyListenerOn = s.replyListenerOn) ∧
    (∀ s : GuestConnState,
        (guestStep target s .close).timerActive = s.timerActive) := by
  refine ⟨?_, ?_, fun s => rfl⟩
  · induction ops with
    | nil => rfl
    | cons op rest ih =>
        have hstep : guestStep target st op = st := by
          obtain ⟨hne, hdel⟩ := hops op (List.mem_cons_self op rest)
          cases op with
          | deliver ev =>
              simp [guestStep, hdel ev rfl]
          | tick => simp [guestStep, hconn]
          | timeoutFire => rfl
          | close => exact absurd rfl hne
        have : guestRun target st (op :: rest) = guestRun target st rest := by
          simp [guestRun, hstep]
        rw [this]
        exact ih (fun o ho => hops o (List.mem_cons_of_mem op ho))
  · intro s op hop
    cases op with
    | deliver ev =>
        simp only [guestStep]
        split <;> rfl
    | tick =>
        simp only [guestStep]
        split <;> rfl
    | timeoutFire => rfl
    | close => exact absurd rfl hop

/-- Witness for C5's amended theorem: a timed-out connect — ticks, the
timeout firing, and a non-matching delivery — changes nothing. -/
theorem guest_resource_release_witness :
    guestInit.connected = false ∧
    (∀ op ∈ [GuestOp.tick, GuestOp.timeoutFire,
        GuestOp.deliver
          { action := actions.RPC_REQUEST, source := 1,
            connectionID := "", time := 50 }],
      op ≠ GuestOp.close ∧
        ∀ ev, op = GuestOp.deliver ev →
          matchesHandshakeReply 1 ev = false) ∧
    (guestRun 1 guestInit
        [GuestOp.tick, GuestOp.timeoutFire,
         GuestOp.deliver
           { action := actions.RPC_REQUEST, source := 1,
             connectionID := "", time := 50 }] = guestInit ∧
      (∀ (s : GuestConnState) (op : GuestOp), op ≠ GuestOp.close →
          (guestStep 1 s op).replyListenerOn = s.replyListenerOn) ∧
      (∀ s : GuestConnState,
          (guestStep 1 s .close).timerActive = s.timerActive)) := by
  have hops : ∀ op ∈ [GuestOp.tick, GuestOp.timeoutFire,
      GuestOp.deliver
        { action := actions.RPC_REQUEST, source := 1,
          connectionID := "", time := 50 }],
      op ≠ GuestOp.close ∧
        ∀ ev, op = GuestOp.deliver ev →
          matchesHandshakeReply 1 ev = false := by
    intro op hop
    simp only [List.mem_cons, List.not_mem_nil, or_false] at hop
    rcases hop with h | h | h <;> subst h
    · exact ⟨by simp, fun ev h => nomatch h⟩
    · exact ⟨by simp, fun ev h => nomatch h⟩
    · refine ⟨by simp, fun ev h => ?_⟩
      injection h with h2
      subst h2
      decide
  exact ⟨rfl, hops,
    guest_resource_release 1 guestInit
      [GuestOp.tick, GuestOp.timeoutFire,
       GuestOp.deliver
         { action := actions.RPC_REQUEST, source := 1,
           connectionID := "", time := 50 }] rfl hops⟩

end Rimless
